import Mathlib

/-!
Verification development for spark-nlp's `CamemBertForTokenClassification`
(`src/python/sparknlp/annotator/classifier_dl/camembert_for_token_classification.py`).

The Python file is a parameter-binding proxy: it declares configuration
parameters with their defaults (`batchSize = 8`, `maxSentenceLength = 128`,
`caseSensitive = True`), the docstring end-to-end example, and the
`pretrained` entry point.  The batched sequence-labeling engine that the
specification describes (`classify`, truncation, batching, reconciliation)
lives behind the Python-to-JVM bridge and is not part of the sources here,
so it is modelled from the specification, definition by definition, with
each such definition marked `Modelled from the spec:`.  Definitions that
come from the Python file itself (defaults, `pretrained`) are embedded
directly from it.
-/

namespace SparkNLP

/-- Modelled from the spec: a Token is a contiguous span of input text with
fields `text`, `start`, `end`, `sentenceIndex` (spec section 3); the engine
code holding this type is behind the JVM bridge and absent from `src/`. -/
structure Token where
  text : String
  start : Int
  end_ : Int
  sentenceIndex : Nat
  deriving DecidableEq, Repr

/-- Modelled from the spec: a Sentence is an ordered sequence of Tokens
identified by `sentenceIndex` (spec section 3). -/
structure Sentence where
  sentenceIndex : Nat
  tokens : List Token
  deriving DecidableEq, Repr

/-- Modelled from the spec: a LabeledToken is the output entity
`\x7btoken, label, score\x7d`; scores are modelled as rationals since the
numeric inference is opaque to this development. -/
structure LabeledToken where
  token : Token
  label : String
  score : ℚ
  deriving DecidableEq, Repr

/-- Modelled from the spec: `EngineConfig` (spec section 3) with the
recognized options that the claims exercise. -/
structure EngineConfig where
  batchSize : Int
  maxSentenceLength : Int
  caseSensitive : Bool
  deriving DecidableEq, Repr

/-- Modelled from the spec: the loaded model owns the fixed ordered label
set, the subword segmentation of a (possibly case-folded) token text into
piece ids, and the per-piece inference: given the retained pieces of one
sentence and a piece position, a score for every label.  Inference is a
function of a single sentence's retained pieces, which is what makes
batching a pure performance partitioning (spec sections 4 and 8). -/
structure Model where
  labelSet : List String
  segment : String → List Nat
  predict : List Nat → Nat → List ℚ

/-- Modelled from the spec: the engine has exactly two states, `Unloaded`
and `Loaded` (spec section 4.1, state machine). -/
inductive EngineState where
  | Unloaded : EngineState
  | Loaded : Model → EngineState

/-- Modelled from the spec: the error taxonomy of spec section 7. -/
inductive EngineError where
  | ModelNotLoadedError : EngineError
  | InvalidConfigError : EngineError
  deriving DecidableEq, Repr

/-- Modelled from the spec: case folding of a token's text, controlled by
`caseSensitive` (spec section 3). -/
def foldCase (cfg : EngineConfig) (s : String) : String :=
  if cfg.caseSensitive then s else s.toLower

/-- Modelled from the spec: sub-token splitting of one Token (spec
section 4.1, algorithm step 1). -/
def tokenPieces (m : Model) (cfg : EngineConfig) (t : Token) : List Nat :=
  m.segment (foldCase cfg t.text)

/-- Modelled from the spec: the position, in the sentence's concatenated
piece sequence, of the first piece of token `i`. -/
def firstPiecePos (piecesPerToken : List (List Nat)) (i : Nat) : Nat :=
  ((piecesPerToken.take i).map List.length).sum

/-- Index of the first maximum of the remaining scores, given the running
best index and value (helper for the arg-max of spec section 4.1 step 4). -/
def argmaxAux : List ℚ → Nat → Nat → ℚ → Nat
  | [], _, best, _ => best
  | x :: xs, i, best, bestVal =>
    if bestVal < x then argmaxAux xs (i + 1) i x
    else argmaxAux xs (i + 1) best bestVal

/-- Modelled from the spec: the arg-max label index of a score vector
(spec section 4.1, algorithm step 4). -/
def argmaxIdx : List ℚ → Nat
  | [] => 0
  | x :: xs => argmaxAux xs 1 0 x

/-- Modelled from the spec: the LabeledToken for a single Token.  A token
whose first piece survived truncation takes the arg-max label and its score
from the model's prediction at that piece (steps 4 and 5); a token whose
first piece was dropped receives the fallback label "O" directly, bypassing
inference (step 2). -/
def classifyToken (m : Model) (maxLen : Nat) (retained : List Nat)
    (pos : Nat) (t : Token) : LabeledToken :=
  if pos < maxLen then
    let scores := m.predict retained pos
    let idx := argmaxIdx scores
    { token := t, label := m.labelSet.getD idx "", score := scores.getD idx 0 }
  else
    { token := t, label := "O", score := 0 }

/-- Modelled from the spec: classification of one sentence — split every
token into pieces, truncate the concatenated pieces at `maxLen`, and emit
one LabeledToken per input token in input token order (spec section 4.1,
steps 1, 2, 4, 5). -/
def classifySentence (m : Model) (cfg : EngineConfig) (s : Sentence) :
    List LabeledToken :=
  let piecesPerToken := s.tokens.map (tokenPieces m cfg)
  let maxLen := cfg.maxSentenceLength.toNat
  let retained := piecesPerToken.flatten.take maxLen
  s.tokens.enum.map fun p =>
    classifyToken m maxLen retained (firstPiecePos piecesPerToken p.1) p.2

/-- Helper for `chunksOf`: `chunksOfAux n l i` returns the first `i`
elements of `l` (closing the chunk in progress) paired with the rest of
`l` cut into chunks of `n + 1` elements. -/
def chunksOfAux (n : Nat) : List α → Nat → List α × List (List α)
  | [], _ => ([], [])
  | x :: xs, 0 =>
    let r := chunksOfAux n xs n
    ([], (x :: r.1) :: r.2)
  | x :: xs, i + 1 =>
    let r := chunksOfAux n xs i
    (x :: r.1, r.2)

/-- Modelled from the spec: grouping of the input sentences into sub-batches
of at most `n` sentences (spec section 4.1, algorithm step 3); `classify`
only calls it with `n ≥ 1`. -/
def chunksOf (n : Nat) (l : List α) : List (List α) :=
  match l, n with
  | [], _ => []
  | x :: xs, 0 => [x :: xs]
  | x :: xs, k + 1 =>
    let r := chunksOfAux k xs k
    (x :: r.1) :: r.2

/-- Modelled from the spec: the `classify` operation of the
SequenceLabelingEngine (spec section 4.1).  It fails with
`ModelNotLoadedError` in the `Unloaded` state, fails with
`InvalidConfigError` when `batchSize < 1` or `maxSentenceLength < 1`, and
otherwise processes the sub-batches in order and reassembles the per-token
labels grouped by sentence. -/
def classify (cfg : EngineConfig) (st : EngineState) (sentences : List Sentence) :
    Except EngineError (List (Nat × List LabeledToken)) :=
  match st with
  | EngineState.Unloaded => Except.error EngineError.ModelNotLoadedError
  | EngineState.Loaded m =>
    if cfg.batchSize < 1 ∨ cfg.maxSentenceLength < 1 then
      Except.error EngineError.InvalidConfigError
    else
      Except.ok (((chunksOf cfg.batchSize.toNat sentences).map fun chunk =>
        chunk.map fun s => (s.sentenceIndex, classifySentence m cfg s)).flatten)

/-- The explicitly-set values and the default values of the PySpark `Param`
machinery, restricted to the three parameters whose defaults
`CamemBertForTokenClassification.__init__` installs via `_setDefault`
(src lines 140-144). -/
structure ParamValues where
  batchSize : Option Int
  maxSentenceLength : Option Int
  caseSensitive : Option Bool
  deriving DecidableEq, Repr

/-- A `Params` holder: values set explicitly by setter calls, and the
default map filled by `_setDefault`. -/
structure AnnotatorParams where
  explicitlySet : ParamValues
  defaults : ParamValues
  deriving DecidableEq, Repr

/-- `CamemBertForTokenClassification.__init__`: a freshly constructed
annotator has no explicitly set values and the defaults
`batchSize=8, maxSentenceLength=128, caseSensitive=True`
(src lines 134-144). -/
def camemBertInit : AnnotatorParams :=
  { explicitlySet := { batchSize := none, maxSentenceLength := none, caseSensitive := none }
    defaults := { batchSize := some 8, maxSentenceLength := some 128, caseSensitive := some true } }

/-- PySpark's `getOrDefault` semantics: the explicitly set value when
present, otherwise the default. -/
def getOrDefault (p : AnnotatorParams) (f : ParamValues → Option α) : Option α :=
  match f p.explicitlySet with
  | some v => some v
  | none => f p.defaults

/-- The argument tuple `pretrained` hands to
`ResourceDownloader.downloadModel` (src lines 186-187): the annotator class
it asks the downloader to instantiate, the model name, the language, and
the optional remote location (`None` selects Spark NLP's repositories). -/
structure DownloadRequest where
  readerClass : String
  name : String
  lang : String
  remote_loc : Option String
  deriving DecidableEq, Repr

/-- `CamemBertForTokenClassification.pretrained` (src lines 166-187).
Python default arguments are modelled with `Option`: a `none` argument
means the caller omitted it, so the Python default of the parameter
applies (`name="camembert_base_token_classifier_wikiner"`, `lang="en"`,
`remote_loc=None`). -/
def pretrained (name lang remote_loc : Option String) : DownloadRequest :=
  { readerClass := "CamemBertForTokenClassification"
    name := name.getD "camembert_base_token_classifier_wikiner"
    lang := lang.getD "en"
    remote_loc := remote_loc }

/-! ### Structural lemmas about the engine -/

/-- The chunk in progress and the remaining chunks of `chunksOfAux`
concatenate back to the input list. -/
theorem chunksOfAux_flatten (n : Nat) : ∀ (l : List α) (i : Nat),
    (chunksOfAux n l i).1 ++ (chunksOfAux n l i).2.flatten = l
  | [], _ => by simp [chunksOfAux]
  | x :: xs, 0 => by
    have ih := chunksOfAux_flatten n xs n
    simp only [chunksOfAux, List.flatten_cons, List.nil_append, List.cons_append, ih]
  | x :: xs, i + 1 => by
    have ih := chunksOfAux_flatten n xs i
    simp only [chunksOfAux, List.cons_append, ih]

/-- The sub-batches of `chunksOf` concatenate back to the input list. -/
theorem chunksOf_flatten (n : Nat) (l : List α) : (chunksOf n l).flatten = l := by
  match l, n with
  | [], _ => rfl
  | x :: xs, 0 => simp [chunksOf]
  | x :: xs, k + 1 =>
    have h := chunksOfAux_flatten k xs k
    simp only [chunksOf, List.flatten_cons, List.cons_append, h]

/-- Mapping over sub-batches and flattening is mapping over the input. -/
theorem chunksOf_map_flatten (n : Nat) (f : α → β) (l : List α) :
    ((chunksOf n l).map fun c => c.map f).flatten = l.map f := by
  have h := List.map_flatten (f := f) (L := chunksOf n l)
  rw [chunksOf_flatten] at h
  exact h.symm

/-- On a loaded engine with a valid configuration, `classify` succeeds and
its output is the per-sentence classification in input sentence order,
whatever the batch size. -/
theorem classify_loaded_ok (m : Model) (cfg : EngineConfig)
    (sentences : List Sentence)
    (hb : 1 ≤ cfg.batchSize) (hl : 1 ≤ cfg.maxSentenceLength) :
    classify cfg (EngineState.Loaded m) sentences =
      Except.ok (sentences.map fun s => (s.sentenceIndex, classifySentence m cfg s)) := by
  simp only [classify]
  rw [if_neg (by omega), chunksOf_map_flatten]

/-- `classifySentence` emits exactly one LabeledToken per input token. -/
theorem classifySentence_length (m : Model) (cfg : EngineConfig) (s : Sentence) :
    (classifySentence m cfg s).length = s.tokens.length := by
  simp only [classifySentence, List.length_map, List.enum_length]

/-- Both branches of `classifyToken` carry the input token unchanged. -/
theorem classifyToken_token (m : Model) (maxLen : Nat) (retained : List Nat)
    (pos : Nat) (t : Token) : (classifyToken m maxLen retained pos t).token = t := by
  rw [classifyToken]; split <;> rfl

/-- The tokens of a sentence's LabeledTokens are the input tokens, in input
order. -/
theorem classifySentence_tokens (m : Model) (cfg : EngineConfig) (s : Sentence) :
    (classifySentence m cfg s).map LabeledToken.token = s.tokens := by
  simp only [classifySentence, List.map_map, Function.comp_def, classifyToken_token]
  exact List.enum_map_snd s.tokens

/-- A sentence with no tokens classifies to no LabeledTokens. -/
theorem classifySentence_nil (m : Model) (cfg : EngineConfig) (s : Sentence)
    (h : s.tokens = []) : classifySentence m cfg s = [] := by
  simp [classifySentence, h]

/-- `classifySentence` reads only `maxSentenceLength` and `caseSensitive`
from the configuration, never `batchSize`. -/
theorem classifySentence_congr (m : Model) (c₁ c₂ : EngineConfig) (s : Sentence)
    (hmax : c₁.maxSentenceLength = c₂.maxSentenceLength)
    (hcase : c₁.caseSensitive = c₂.caseSensitive) :
    classifySentence m c₁ s = classifySentence m c₂ s := by
  have hp : tokenPieces m c₁ = tokenPieces m c₂ := by
    funext t; simp only [tokenPieces, foldCase, hcase]
  simp only [classifySentence, hmax, hp]

/-! ### Claim theorems -/

/-- C1: for every batch of sentences accepted by `classify` on a loaded
engine, the number of LabeledTokens emitted for sentence `i` equals the
number of input Tokens of sentence `i`, for every `i` (the per-sentence
output lengths, as a list, equal the per-sentence input token counts), even
when truncation drops subword pieces beyond `maxSentenceLength`. -/
theorem classify_cardinality (m : Model) (cfg : EngineConfig)
    (sentences : List Sentence) (out : List (Nat × List LabeledToken))
    (hb : 1 ≤ cfg.batchSize) (hl : 1 ≤ cfg.maxSentenceLength)
    (hout : classify cfg (EngineState.Loaded m) sentences = Except.ok out) :
    out.map (fun p => p.2.length) = sentences.map (fun s => s.tokens.length) := by
  rw [classify_loaded_ok m cfg sentences hb hl, Except.ok.injEq] at hout
  subst hout
  simp [List.map_map, Function.comp_def, classifySentence_length]

/-- C6: calling `classify` in the `Unloaded` state fails with
`ModelNotLoadedError` and produces no output, for every configuration and
input. -/
theorem classify_unloaded (cfg : EngineConfig) (sentences : List Sentence) :
    classify cfg EngineState.Unloaded sentences =
      Except.error EngineError.ModelNotLoadedError := rfl

/-- C7: with `batchSize < 1` or `maxSentenceLength < 1`, `classify` on a
loaded engine fails with `InvalidConfigError` (surfaced at the `classify`
call in this model) and never runs inference: the call returns the error
and no output. -/
theorem classify_invalid_config (m : Model) (cfg : EngineConfig)
    (sentences : List Sentence)
    (hinv : cfg.batchSize < 1 ∨ cfg.maxSentenceLength < 1) :
    classify cfg (EngineState.Loaded m) sentences =
      Except.error EngineError.InvalidConfigError := by
  simp only [classify]
  rw [if_pos hinv]

/-- C2: in a sentence whose concatenated pieces overflow
`maxSentenceLength`, every token whose first piece lies beyond the limit
(its first-piece position is at least `maxSentenceLength`) comes out as the
constant fallback `\x7btoken, "O", 0\x7d` — a value independent of
`m.predict`, so the token never reaches inference — and `classify`
succeeds on that sentence with no error. -/
theorem truncation_fallback (m : Model) (cfg : EngineConfig) (s : Sentence)
    (j : Nat) (hb : 1 ≤ cfg.batchSize) (hl : 1 ≤ cfg.maxSentenceLength)
    (hj : j < s.tokens.length)
    (hdrop : cfg.maxSentenceLength.toNat ≤
      firstPiecePos (s.tokens.map (tokenPieces m cfg)) j) :
    (∃ out, classify cfg (EngineState.Loaded m) [s] = Except.ok out) ∧
    (classifySentence m cfg s).get
        ⟨j, by rw [classifySentence_length]; exact hj⟩ =
      { token := s.tokens.get ⟨j, hj⟩, label := "O", score := 0 } := by
  refine ⟨⟨_, classify_loaded_ok m cfg [s] hb hl⟩, ?_⟩
  simp only [classifySentence, List.get_eq_getElem, List.getElem_map,
    List.getElem_enum]
  rw [classifyToken, if_neg (by omega)]

/-- C3: for a fixed input batch and a fixed loaded model, `classify` with
`batchSize = 1` and `classify` with `batchSize = 8` (all other
configuration equal) return identical outputs — the same label and score
for every token: batching partitions work but never changes results. -/
theorem batch_invariance (m : Model) (cfg : EngineConfig)
    (sentences : List Sentence) (hl : 1 ≤ cfg.maxSentenceLength) :
    classify { cfg with batchSize := 1 } (EngineState.Loaded m) sentences =
      classify { cfg with batchSize := 8 } (EngineState.Loaded m) sentences := by
  rw [classify_loaded_ok m { cfg with batchSize := 1 } sentences (by norm_num)
      (by exact hl),
    classify_loaded_ok m { cfg with batchSize := 8 } sentences (by norm_num)
      (by exact hl)]
  have hcs : ∀ t : Sentence,
      classifySentence m { cfg with batchSize := 1 } t =
        classifySentence m { cfg with batchSize := 8 } t :=
    fun t => classifySentence_congr m _ _ t rfl rfl
  simp only [hcs]

/-- C4: for every accepted input and every `batchSize ≥ 1`, `classify`
succeeds and the output preserves the input order exactly: the output
sentence entries appear in input sentence order (their indices are the
input sentences' `sentenceIndex` values in order), and within each
sentence the LabeledTokens carry the input Tokens in input token order —
independently of how `chunksOf` partitioned the work. -/
theorem order_preservation (m : Model) (cfg : EngineConfig)
    (sentences : List Sentence) (out : List (Nat × List LabeledToken))
    (hb : 1 ≤ cfg.batchSize) (hl : 1 ≤ cfg.maxSentenceLength)
    (hout : classify cfg (EngineState.Loaded m) sentences = Except.ok out) :
    out.map Prod.fst = sentences.map Sentence.sentenceIndex ∧
    out.map (fun p => p.2.map LabeledToken.token) =
      sentences.map Sentence.tokens := by
  rw [classify_loaded_ok m cfg sentences hb hl, Except.ok.injEq] at hout
  subst hout
  constructor
  · simp [List.map_map, Function.comp_def]
  · simp [List.map_map, Function.comp_def, classifySentence_tokens]

/-- C9: a Sentence with no tokens yields the empty LabeledToken sequence
at its position in the output, and `classify` raises no error: the
sentence's output entry is `(sentenceIndex, [])`, with all other sentences
processed as usual. -/
theorem empty_sentence_output (m : Model) (cfg : EngineConfig)
    (pre post : List Sentence) (s : Sentence)
    (hb : 1 ≤ cfg.batchSize) (hl : 1 ≤ cfg.maxSentenceLength)
    (hempty : s.tokens = []) :
    classify cfg (EngineState.Loaded m) (pre ++ s :: post) =
      Except.ok
        ((pre.map fun t => (t.sentenceIndex, classifySentence m cfg t)) ++
          (s.sentenceIndex, []) ::
            (post.map fun t => (t.sentenceIndex, classifySentence m cfg t))) := by
  rw [classify_loaded_ok m cfg _ hb hl]
  simp [classifySentence_nil m cfg s hempty]

/-! ### The docstring example (src lines 82-89) -/

/-- Vocabulary of the docstring example sentence; each word is one piece
whose id is its vocabulary index. -/
def exampleVocab : List String := ["george", "washington", "est", "allé", "à"]

/-- Segmentation of the docstring example: one piece per word. -/
def exampleSegment (w : String) : List Nat := [exampleVocab.indexOf w]

/-- A contextual predictor matching the docstring example: "george" is
I-PER; "washington" is I-PER when preceded by "george" (the person) and
I-LOC otherwise (the city); every other word is O.  Scores are over the
label set `["O", "I-PER", "I-LOC"]`. -/
def examplePredict (pieces : List Nat) (pos : Nat) : List ℚ :=
  let p := pieces.getD pos 99
  if p = 0 then [0, 1, 0]
  else if p = 1 then
    if pieces.getD (pos - 1) 99 = 0 then [0, 1, 0] else [0, 0, 1]
  else [1, 0, 0]

/-- The loaded model of the docstring example, with
`labelSet = ["O", "I-PER", "I-LOC"]`. -/
def exampleModel : Model :=
  { labelSet := ["O", "I-PER", "I-LOC"]
    segment := exampleSegment
    predict := examplePredict }

/-- The tokenization of `"george washington est allé à washington"`. -/
def exampleSentence : Sentence :=
  { sentenceIndex := 0
    tokens := [⟨"george", 0, 5, 0⟩, ⟨"washington", 7, 16, 0⟩,
      ⟨"est", 18, 20, 0⟩, ⟨"allé", 22, 25, 0⟩, ⟨"à", 27, 27, 0⟩,
      ⟨"washington", 29, 38, 0⟩] }

/-- The default configuration the docstring pipeline runs under
(`batchSize=8, maxSentenceLength=128, caseSensitive=True`). -/
def docstringConfig : EngineConfig :=
  { batchSize := 8, maxSentenceLength := 128, caseSensitive := true }

/-- C5: on the docstring example sentence
`["george","washington","est","allé","à","washington"]`, with label set
`\x7bO, I-PER, I-LOC\x7d` and a model matching the docstring example,
`classify` produces exactly the label sequence
`[I-PER, I-PER, O, O, O, I-LOC]` in that order. -/
theorem end_to_end_example :
    (classify docstringConfig (EngineState.Loaded exampleModel)
        [exampleSentence]).map
        (fun out => out.map fun p => p.2.map LabeledToken.label) =
      Except.ok [["I-PER", "I-PER", "O", "O", "O", "I-LOC"]] := by
  rfl

/-- C8: a freshly constructed annotator (no setter called) resolves its
parameters to the `__init__` defaults: `batchSize = 8`,
`maxSentenceLength = 128`, `caseSensitive = true`. -/
theorem default_config_values :
    getOrDefault camemBertInit ParamValues.batchSize = some 8 ∧
    getOrDefault camemBertInit ParamValues.maxSentenceLength = some 128 ∧
    getOrDefault camemBertInit ParamValues.caseSensitive = some true :=
  ⟨rfl, rfl, rfl⟩

/-- C10: `pretrained()` with no arguments asks the downloader for the
model named "camembert_base_token_classifier_wikiner", language "en",
no remote location (Spark NLP's default repositories), instantiated as
a `CamemBertForTokenClassification`. -/
theorem pretrained_default_request :
    pretrained none none none =
      { readerClass := "CamemBertForTokenClassification"
        name := "camembert_base_token_classifier_wikiner"
        lang := "en"
        remote_loc := none } := rfl

/-! ### Witness fixtures: a tiny concrete model and inputs -/

/-- A tiny witness model: two labels, one piece per character of a token's
text, and a constant score vector favouring "I-PER". -/
def witModel : Model :=
  { labelSet := ["O", "I-PER"]
    segment := fun w => List.range w.length
    predict := fun _ _ => [1, 2] }

/-- Witness configuration exercising truncation: two pieces per sentence
at most, sub-batches of two sentences. -/
def witCfg : EngineConfig := { batchSize := 2, maxSentenceLength := 2, caseSensitive := true }

/-- A witness token of the given text. -/
def witTok (t : String) : Token := { text := t, start := 0, end_ := 0, sentenceIndex := 0 }

/-- Witness sentence 0: three tokens, four pieces, so the third token's
first piece is truncated away. -/
def witS0 : Sentence := { sentenceIndex := 0, tokens := [witTok "a", witTok "bc", witTok "d"] }

/-- Witness sentence 1: no tokens. -/
def witS1 : Sentence := { sentenceIndex := 1, tokens := [] }

/-- Witness sentence 2: one token. -/
def witS2 : Sentence := { sentenceIndex := 2, tokens := [witTok "e"] }

/-- The witness input batch. -/
def witSentences : List Sentence := [witS0, witS1, witS2]

/-- The output `classify` produces on the witness batch. -/
def witOut : List (Nat × List LabeledToken) :=
  [(0, [⟨witTok "a", "I-PER", 2⟩, ⟨witTok "bc", "I-PER", 2⟩, ⟨witTok "d", "O", 0⟩]),
   (1, []),
   (2, [⟨witTok "e", "I-PER", 2⟩])]

/-- Witness for C1 at the concrete batch `witSentences`. -/
theorem classify_cardinality_witness :
    witOut.map (fun p => p.2.length) = witSentences.map (fun s => s.tokens.length) :=
  classify_cardinality witModel witCfg witSentences witOut (by decide) (by decide) rfl

/-- Witness configuration for C2: at most one piece per sentence. -/
def truncCfg : EngineConfig := { batchSize := 1, maxSentenceLength := 1, caseSensitive := true }

/-- Witness sentence for C2: the second token's first piece is dropped. -/
def truncSentence : Sentence := { sentenceIndex := 0, tokens := [witTok "ab", witTok "c"] }

/-- Witness for C2 at the concrete over-length sentence `truncSentence`. -/
theorem truncation_fallback_witness :
    (∃ out, classify truncCfg (EngineState.Loaded witModel) [truncSentence] =
      Except.ok out) ∧
    (classifySentence witModel truncCfg truncSentence).get ⟨1, by decide⟩ =
      { token := truncSentence.tokens.get ⟨1, by decide⟩, label := "O", score := 0 } :=
  truncation_fallback witModel truncCfg truncSentence 1 (by decide) (by decide)
    (by decide) (by decide)

/-- Witness for C3 at the concrete batch `witSentences`. -/
theorem batch_invariance_witness :
    classify { witCfg with batchSize := 1 } (EngineState.Loaded witModel) witSentences =
      classify { witCfg with batchSize := 8 } (EngineState.Loaded witModel) witSentences :=
  batch_invariance witModel witCfg witSentences (by decide)

/-- Witness for C4 at the concrete batch `witSentences`. -/
theorem order_preservation_witness :
    witOut.map Prod.fst = witSentences.map Sentence.sentenceIndex ∧
    witOut.map (fun p => p.2.map LabeledToken.token) =
      witSentences.map Sentence.tokens :=
  order_preservation witModel witCfg witSentences witOut (by decide) (by decide) rfl

/-- A configuration with `batchSize = 0`, invalid per the spec. -/
def badCfg : EngineConfig := { batchSize := 0, maxSentenceLength := 128, caseSensitive := true }

/-- Witness for C7 at the concrete invalid configuration `badCfg`. -/
theorem classify_invalid_config_witness :
    classify badCfg (EngineState.Loaded witModel) witSentences =
      Except.error EngineError.InvalidConfigError :=
  classify_invalid_config witModel badCfg witSentences (by decide)

/-- Witness for C9 at the concrete batch with the empty sentence `witS1`
in the middle. -/
theorem empty_sentence_output_witness :
    classify witCfg (EngineState.Loaded witModel) ([witS0] ++ witS1 :: [witS2]) =
      Except.ok
        (([witS0].map fun t => (t.sentenceIndex, classifySentence witModel witCfg t)) ++
          (witS1.sentenceIndex, []) ::
            ([witS2].map fun t => (t.sentenceIndex, classifySentence witModel witCfg t))) :=
  empty_sentence_output witModel witCfg [witS0] [witS2] witS1 (by decide) (by decide) rfl

end SparkNLP
